import Mathlib

/-!
Shallow embedding of the interest-prediction app (src/app.py).

The core pipeline is:
  * gender encoding and single-row input frame construction (lines 312-316);
  * classifier invocation with exception handling (lines 319-344);
  * confidence derivation `max(probabilities) * 100` (line 322);
  * label-to-glyph lookup with a generic fallback (lines 325-331);
  * model loading with an absent-file sentinel (lines 219-230);
  * gender-selection session state with a "Female" default (lines 292-298).

The classifier artifact is modelled as a record of its two calls, each of
which may fail (an exception is an `Except.error` carrying the message).
Probabilities are modelled as rationals.
-/

/-- `gender_encoded = 0 if st.session_state.gender_sel == "Female" else 1`
(app.py line 312). -/
def gender_encoded (gender_sel : String) : Int :=
  if gender_sel = "Female" then 0 else 1

/-- The single-row input frame `pd.DataFrame({'Age': [age], 'Gender': [g]})`
(app.py lines 313-316), modelled as an ordered list of (column, value) pairs. -/
def input_data (age : Int) (gender_sel : String) : List (String × Int) :=
  [("Age", age), ("Gender", gender_encoded gender_sel)]

/-- The gender-selection logic over session state (app.py lines 292-298):
initialise the session value to "Female" when absent, then override it when
one of the two buttons was clicked. -/
def gender_selection (gender_sel : Option String)
    (female_selected male_selected : Bool) : String :=
  let g0 := gender_sel.getD "Female"
  if female_selected then "Female"
  else if male_selected then "Male"
  else g0

/-- The fitted classifier artifact, seen through its two calls
`model.predict(input_data)[0]` and `model.predict_proba(input_data)[0]`.
A raised exception is an `Except.error` carrying the message string. -/
structure Model where
  predict : List (String × Int) → Except String String
  predict_proba : List (String × Int) → Except String (ℚ × ℚ × ℚ)

/-- `confidence = max(probabilities) * 100` (app.py line 322) over the
three-class probability row. -/
def confidence (probabilities : ℚ × ℚ × ℚ) : ℚ :=
  max probabilities.1 (max probabilities.2.1 probabilities.2.2) * 100

/-- `emoji_map.get(prediction, '🎯')` over the fixed dictionary
`{'Animation': '🎬', 'Action': '💥', 'Drama': '🎭'}` (app.py lines 325-331). -/
def emoji_map_get (prediction : String) : String :=
  if prediction = "Animation" then "🎬"
  else if prediction = "Action" then "💥"
  else if prediction = "Drama" then "🎭"
  else "🎯"

/-- Outcome of the predict-button handler: either a rendered result card
(label, confidence, glyph) or the `st.error` message from the except branch. -/
inductive Outcome where
  | result (prediction : String) (conf : ℚ) (glyph : String)
  | errorMsg (msg : String)
deriving DecidableEq

/-- The try/except body around the two classifier calls (app.py lines
319-344), given the outcome of each call.  The second component records
which classifier calls were actually made, in order: when `predict` raises,
`predict_proba` is never reached. -/
def predictStep (predictR : Except String String)
    (probaR : Except String (ℚ × ℚ × ℚ)) : Outcome × List String :=
  match predictR with
  | .error e => (.errorMsg ("Error making prediction: " ++ e), ["predict"])
  | .ok prediction =>
    match probaR with
    | .error e => (.errorMsg ("Error making prediction: " ++ e),
                   ["predict", "predict_proba"])
    | .ok probabilities =>
      (.result prediction (confidence probabilities) (emoji_map_get prediction),
       ["predict", "predict_proba"])

/-- One full prediction over a loaded model and input frame. -/
def runPredict (m : Model) (df : List (String × Int)) : Outcome :=
  (predictStep (m.predict df) (m.predict_proba df)).1

/-- `load_model` (app.py lines 219-230): when the file exists, deserialize it
(`deser` is the outcome of `joblib.load`, an exception being `Except.error`);
a caught exception displays `st.error` and returns `None`; an absent file
returns `None` with no message.  Result: (returned handle, displayed error). -/
def load_model (fileExists : Bool) (deser : Except String Model) :
    Option Model × Option String :=
  if fileExists then
    match deser with
    | .ok m => (some m, none)
    | .error e => (none, some ("Error loading model: " ++ e))
  else
    (none, none)

/-- What `main` renders: the degraded "Model not found" notice (app.py lines
247-254, followed by `return`), or the prediction UI with an optional
prediction outcome. -/
inductive AppView where
  | degradedNotice
  | predictionUI (outcome : Option Outcome)
deriving DecidableEq

/-- The `main` control flow (app.py lines 232-344) after loading: when the
model handle is `None`, render the degraded notice and return; otherwise
render the form and, when a prediction request (age, gender) was submitted,
run the pipeline. -/
def mainView (model : Option Model) (request : Option (Int × String)) :
    AppView :=
  match model with
  | none => .degradedNotice
  | some m =>
    match request with
    | none => .predictionUI none
    | some (age, gsel) =>
      .predictionUI (some (runPredict m (input_data age gsel)))

/-- C1: for every age in [18,80] and gender label in {"Female","Male"}, the
encoded frame has columns in the fixed order (Age, Gender), the Age field is
the input age unchanged, and the Gender field is 0 for "Female" and 1 for
"Male". -/
theorem encode_known_genders (age : Int) (g : String)
    (h1 : 18 ≤ age) (h2 : age ≤ 80) (hg : g = "Female" ∨ g = "Male") :
    input_data age g = [("Age", age), ("Gender", if g = "Female" then 0 else 1)] ∧
    (g = "Female" → gender_encoded g = 0) ∧
    (g = "Male" → gender_encoded g = 1) := by
  rcases hg with h | h <;> subst h
  · exact ⟨rfl, fun _ => rfl, fun hx => absurd hx (by decide)⟩
  · exact ⟨rfl, fun hx => absurd hx (by decide), fun _ => rfl⟩

theorem encode_known_genders_witness :
    input_data 25 "Male" =
      [("Age", 25), ("Gender", if "Male" = "Female" then 0 else 1)] ∧
    ("Male" = "Female" → gender_encoded "Male" = 0) ∧
    ("Male" = "Male" → gender_encoded "Male" = 1) :=
  encode_known_genders 25 "Male" (by norm_num) (by norm_num) (Or.inr rfl)

/-- C2: when every entry of the three-class probability row lies in [0,1],
the confidence equals the maximum entry times 100 (no further normalization,
temperature scaling, or calibration) and therefore lies in [0,100]. -/
theorem confidence_max_times_100 (p : ℚ × ℚ × ℚ)
    (h : (0 ≤ p.1 ∧ p.1 ≤ 1) ∧ (0 ≤ p.2.1 ∧ p.2.1 ≤ 1) ∧
         (0 ≤ p.2.2 ∧ p.2.2 ≤ 1)) :
    confidence p = max p.1 (max p.2.1 p.2.2) * 100 ∧
    0 ≤ confidence p ∧ confidence p ≤ 100 := by
  obtain ⟨⟨h01, h11⟩, ⟨h02, h12⟩, h03, h13⟩ := h
  refine ⟨rfl, ?_, ?_⟩
  · exact mul_nonneg (le_trans h01 (le_max_left _ _)) (by norm_num)
  · have hm : max p.1 (max p.2.1 p.2.2) ≤ 1 := max_le h11 (max_le h12 h13)
    calc confidence p = max p.1 (max p.2.1 p.2.2) * 100 := rfl
      _ ≤ 1 * 100 := mul_le_mul_of_nonneg_right hm (by norm_num)
      _ = 100 := by norm_num

theorem confidence_max_times_100_witness :
    confidence (7/10, 2/10, 1/10) =
      max (7/10 : ℚ) (max (2/10) (1/10)) * 100 ∧
    0 ≤ confidence (7/10, 2/10, 1/10) ∧
    confidence (7/10, 2/10, 1/10) ≤ 100 :=
  confidence_max_times_100 (7/10, 2/10, 1/10) (by norm_num)

/-- C3 counterexample: the encoding step is total and silently encodes the
out-of-set label "Other" as 1 (the same value as "Male"); no EncodingError
exists in the code. -/
theorem encode_other_counterexample :
    gender_encoded "Other" = 1 ∧
    input_data 25 "Other" = [("Age", 25), ("Gender", 1)] :=
  ⟨rfl, rfl⟩

/-- C3 amended: every gender label other than "Female" (including any label
outside the two known ones, such as "Other") is silently encoded as 1; the
encoding step never fails. -/
theorem encode_unknown_silently_one (g : String) (h : g ≠ "Female") :
    gender_encoded g = 1 := by
  unfold gender_encoded
  simp [h]

theorem encode_unknown_silently_one_witness :
    gender_encoded "Other" = 1 :=
  encode_unknown_silently_one "Other" (by decide)

/-- C4 counterexample: when the classifier returns the out-of-set label
"Comedy" (both calls succeeding), the handler returns it as an accepted
result card with the fallback glyph, not an error. -/
theorem unknown_label_counterexample :
    runPredict ⟨fun _ => Except.ok "Comedy", fun _ => Except.ok (1/2, 1/4, 1/4)⟩
      (input_data 25 "Female") = Outcome.result "Comedy" 50 "🎯" := by
  show Outcome.result "Comedy" (confidence (1/2, 1/4, 1/4))
      (emoji_map_get "Comedy") = _
  have hg : emoji_map_get "Comedy" = "🎯" := by decide
  rw [hg]
  norm_num [confidence]

/-- C4 amended: every label outside {"Animation","Action","Drama"} returned
by a successful predict call is silently accepted and rendered as a result
with the generic fallback glyph; no UnknownLabelError is raised. -/
theorem unknown_label_accepted (l : String) (p : ℚ × ℚ × ℚ)
    (h : l ≠ "Animation" ∧ l ≠ "Action" ∧ l ≠ "Drama") :
    (predictStep (Except.ok l) (Except.ok p)).1 =
      Outcome.result l (confidence p) "🎯" := by
  obtain ⟨h1, h2, h3⟩ := h
  simp [predictStep, emoji_map_get, h1, h2, h3]

theorem unknown_label_accepted_witness :
    (predictStep (Except.ok "Comedy") (Except.ok (1/2, 1/4, 1/4))).1 =
      Outcome.result "Comedy" (confidence (1/2, 1/4, 1/4)) "🎯" :=
  unknown_label_accepted "Comedy" (1/2, 1/4, 1/4) (by decide)

/-- C5: with the artifact file absent, `load_model` returns the `None`
sentinel (and displays no error), and `main` renders the degraded notice for
every request, never a prediction UI and never an unhandled fault (the
embedding is a total function). -/
theorem absent_model_degraded (d : Except String Model)
    (req : Option (Int × String)) :
    load_model false d = (none, none) ∧
    mainView (load_model false d).1 req = AppView.degradedNotice ∧
    ∀ o, mainView (load_model false d).1 req ≠ AppView.predictionUI o := by
  refine ⟨rfl, rfl, fun o h => ?_⟩
  exact AppView.noConfusion h

/-- C6: every exception raised during either classifier call is caught and
reported as the per-request error message carrying the underlying text, and
each of the two calls is made at most once (no retry); the handler is total,
so the process does not crash. -/
theorem exception_caught_as_error (predictR : Except String String)
    (probaR : Except String (ℚ × ℚ × ℚ)) (e : String)
    (h : predictR = Except.error e ∨
         ∃ l, predictR = Except.ok l ∧ probaR = Except.error e) :
    (predictStep predictR probaR).1 =
      Outcome.errorMsg ("Error making prediction: " ++ e) ∧
    (predictStep predictR probaR).2.count "predict" ≤ 1 ∧
    (predictStep predictR probaR).2.count "predict_proba" ≤ 1 := by
  rcases h with h | ⟨l, h1, h2⟩
  · subst h
    refine ⟨rfl, ?_, ?_⟩
    · show (["predict"] : List String).count "predict" ≤ 1
      decide
    · show (["predict"] : List String).count "predict_proba" ≤ 1
      decide
  · subst h1; subst h2
    refine ⟨rfl, ?_, ?_⟩
    · show (["predict", "predict_proba"] : List String).count "predict" ≤ 1
      decide
    · show (["predict", "predict_proba"] : List String).count "predict_proba" ≤ 1
      decide

theorem exception_caught_as_error_witness :
    (predictStep (Except.error "boom") (Except.ok (1, 0, 0))).1 =
      Outcome.errorMsg ("Error making prediction: " ++ "boom") ∧
    (predictStep (Except.error "boom") (Except.ok (1, 0, 0))).2.count "predict" ≤ 1 ∧
    (predictStep (Except.error "boom") (Except.ok (1, 0, 0))).2.count "predict_proba" ≤ 1 :=
  exception_caught_as_error (Except.error "boom") (Except.ok (1, 0, 0)) "boom"
    (Or.inl rfl)

/-- C7: prediction over a loaded artifact is deterministic: two calls with
the same feature frame return the same outcome (label, confidence, glyph). -/
theorem predict_deterministic (m : Model) (df₁ df₂ : List (String × Int))
    (h : df₁ = df₂) : runPredict m df₁ = runPredict m df₂ := by
  rw [h]

theorem predict_deterministic_witness :
    runPredict ⟨fun _ => Except.ok "Drama", fun _ => Except.ok (1/10, 2/10, 7/10)⟩
        (input_data 30 "Male") =
      runPredict ⟨fun _ => Except.ok "Drama", fun _ => Except.ok (1/10, 2/10, 7/10)⟩
        (input_data 30 "Male") :=
  predict_deterministic
    ⟨fun _ => Except.ok "Drama", fun _ => Except.ok (1/10, 2/10, 7/10)⟩
    (input_data 30 "Male") (input_data 30 "Male") rfl

/-- C8 counterexample: for a present-but-corrupt artifact, `load_model`
returns `None` — exactly the same handle as the "unavailable" sentinel for
an absent file — so the returned result is not distinct from it. -/
theorem corrupt_load_counterexample :
    (load_model true (Except.error "corrupt")).1 = none ∧
    (load_model false (Except.error "corrupt")).1 = none :=
  ⟨rfl, rfl⟩

/-- C8 amended: when the artifact file is present but deserialization fails,
`load_model` catches the exception and displays an error message carrying
the underlying cause, but returns the same `None` sentinel used for an
absent file (not a distinct result); there is no retry and no fallback
model. -/
theorem corrupt_model_load (e : String) (d : Except String Model) :
    load_model true (Except.error e) =
      (none, some ("Error loading model: " ++ e)) ∧
    (load_model true (Except.error e)).1 = (load_model false d).1 :=
  ⟨rfl, rfl⟩

/-- C9: the display glyph comes from the fixed finite lookup mapping
"Animation" to 🎬, "Action" to 💥 and "Drama" to 🎭, and every label outside
that set maps to the one generic fallback glyph 🎯. -/
theorem glyph_lookup (l : String)
    (h : l ≠ "Animation" ∧ l ≠ "Action" ∧ l ≠ "Drama") :
    emoji_map_get "Animation" = "🎬" ∧
    emoji_map_get "Action" = "💥" ∧
    emoji_map_get "Drama" = "🎭" ∧
    emoji_map_get l = "🎯" := by
  obtain ⟨h1, h2, h3⟩ := h
  refine ⟨by decide, by decide, by decide, ?_⟩
  simp [emoji_map_get, h1, h2, h3]

theorem glyph_lookup_witness :
    emoji_map_get "Animation" = "🎬" ∧
    emoji_map_get "Action" = "💥" ∧
    emoji_map_get "Drama" = "🎭" ∧
    emoji_map_get "Comedy" = "🎯" :=
  glyph_lookup "Comedy" (by decide)

/-- C10: with no prior session value and no gender button pressed, the
selection defaults to exactly "Female", so a prediction issued before any
button press encodes the Gender field as 0. -/
theorem default_gender_female (age : Int) :
    gender_selection none false false = "Female" ∧
    gender_encoded (gender_selection none false false) = 0 ∧
    input_data age (gender_selection none false false) =
      [("Age", age), ("Gender", 0)] :=
  ⟨rfl, rfl, rfl⟩
